import Mathlib

/-!
Shallow embedding of `api.go` from the `fiber-easyrest` repository: a generic
CRUD dispatch layer for the Fiber web framework.  The embedding models the
`Api[T, D]` resource descriptor, the route registration performed by
`RegisterAPI`, and each request handler (`getAll`, `getAllPage`, `search`,
`getOne`, `createOne`, `mutateOne`, `deleteOne`, `getSubEntity`) as pure
functions from an immutable descriptor and a request to a response.

Modelling conventions:
* Go's `func(key string) (T, bool)` becomes `String → Option T`; functions
  returning `(T, error)` become `… → Except E T` with `E` an abstract error
  type; nilable function fields become `Option (…)`.
* The Fiber context is reduced to the data the handlers read from it: the
  `:id` route parameter and the decoded request body.  `BodyParser` failure is
  modelled by the body being `none`.
* `Page[T]` is not defined in `api.go` (it is an opaque, externally produced
  pagination structure), so it is modelled by an abstract type parameter `P`.
* The sub-entity getters return `[]any`; the element type is the abstract
  parameter `A`.
* Calling a nil function field in Go panics; the embedding returns the
  distinguished response `Response.nilFunctionCall` in that case.
* Each handler additionally returns the list of invocations of the
  authorization predicate (`Validator`) it performed, so that properties about
  when and with which arguments the predicate is consulted can be stated.
-/

set_option autoImplicit false

namespace EasyRest

variable {T D P E A : Type}

/-- The action tags passed to the authorization predicate, mirroring the Go
constants `ActionGetAll`, `ActionGetOne`, `ActionMutate`, `ActionCreate`,
`ActionDelete`. -/
inductive Action where
  | getAll
  | getOne
  | mutate
  | create
  | delete
  deriving DecidableEq

/-- Go's `SubEntity[T, D]`: a named read-only sub-collection.  `Get` returns
`[]any`, modelled with the abstract element type `A`. -/
structure SubEntity (T D A : Type) where
  SubPath : String
  Get : T → List A

/-- The slice of the Fiber context a handler reads: the `:id` route parameter
and the request body decoded into `D` (`none` when `BodyParser` fails). -/
structure Request (D : Type) where
  param : String
  body : Option D

/-- Go's `Api[T, D]` resource descriptor.  `P` stands for the opaque
`Page[T]`, `E` for Go's `error`, `A` for `any`. -/
structure Api (T D P E A : Type) where
  Path : String
  Find : String → Option T
  FindAllPage : Int → P
  FindAll : Unit → List T
  Search : Option (D → List T)
  Mutate : Option (T → D → Except E T)
  Create : Option (D → Except E T)
  Delete : Option (T → Except E T)
  SubEntities : List (SubEntity T D A)
  Dto : T → D
  Validator : Option (Request D → Action → List T → Bool)

/-- One recorded invocation of the authorization predicate: the action tag and
the variadic item list it was given. -/
structure AuthCall (T : Type) where
  action : Action
  items : List T
  deriving DecidableEq

/-- The observable response of a handler.  `status` is `c.SendStatus(code)`;
the `json…` constructors record which payload shape is serialized by
`c.JSON`; `text` is `c.SendString`; `nilFunctionCall` marks the Go panic from
invoking a nil function field. -/
inductive Response (D P A : Type) where
  | status (code : Nat)
  | jsonList (body : List D)
  | jsonPage (body : P)
  | jsonOne (body : D)
  | jsonSub (body : List A)
  | text (s : String)
  | nilFunctionCall
  deriving DecidableEq

def StatusBadRequest : Nat := 400
def StatusUnauthorized : Nat := 401
def StatusNotFound : Nat := 404
def StatusInternalServerError : Nat := 500

/-- One evaluation of the Go guard
`api.Validator != nil && !api.Validator(c, action, items...)`: returns whether
the action is allowed together with the predicate invocations performed (none
when no predicate is configured). -/
def Api.checkAuth (api : Api T D P E A) (c : Request D) (a : Action)
    (items : List T) : Bool × List (AuthCall T) :=
  match api.Validator with
  | none => (true, [])
  | some v => (v c a items, [⟨a, items⟩])

/-- Handler for `GET /`: authorization check, then every entity from
`FindAll` converted through `Dto`. -/
def getAll (api : Api T D P E A) (c : Request D) :
    Response D P A × List (AuthCall T) :=
  let auth := api.checkAuth c .getAll []
  if !auth.1 then (.status StatusUnauthorized, auth.2)
  else (.jsonList ((api.FindAll ()).map api.Dto), auth.2)

/-- Accumulator loop of `strconv.ParseUint` for base 10: consume decimal
digits; any non-digit character is a syntax error (`none`). -/
def decDigits : List Char → Nat → Option Nat
  | [], acc => some acc
  | ch :: cs, acc =>
    if ch.isDigit then decDigits cs (acc * 10 + (ch.toNat - Char.toNat '0'))
    else none

/-- Value of a non-empty all-digit string; `none` on the empty string or any
non-digit. -/
def digitsValue : List Char → Option Nat
  | [] => none
  | ch :: cs => decDigits (ch :: cs) 0

/-- The digit characters after stripping an optional leading `+`/`-` sign. -/
def signTail (ch : Char) (rest : List Char) : List Char :=
  if ch == '-' || ch == '+' then rest else ch :: rest

/-- `strconv.ParseInt(s, 10, 64)` on the character list of `s`: optional
leading sign, decimal digits, clamped to the signed 64-bit range.  Returns
`(value, ok)`; on a syntax error the value is `0`, on a range overflow it is
the clamped extreme — exactly the pair Go returns alongside the error. -/
def parseIntCore : List Char → Int × Bool
  | [] => (0, false)
  | ch :: rest =>
    match digitsValue (signTail ch rest) with
    | none => (0, false)
    | some n =>
      if ch == '-' then
        if n > 2 ^ 63 then (-(2 ^ 63 : Int), false) else (-(n : Int), true)
      else
        if 2 ^ 63 ≤ n then ((2 ^ 63 - 1 : Int), false) else ((n : Int), true)

/-- `strconv.ParseInt(s, 10, 64)` as used by `getAllPage`. -/
def parseInt64 (s : String) : Int × Bool := parseIntCore s.data

/-- `true` iff the character list has integer syntax: an optional `+`/`-`
sign followed by at least one decimal digit (and nothing else). -/
def intFormatCore : List Char → Bool
  | [] => false
  | ch :: rest =>
    !(signTail ch rest).isEmpty && (signTail ch rest).all Char.isDigit

/-- `true` iff the string has integer syntax: an optional `+`/`-` sign
followed by at least one decimal digit (and nothing else). -/
def intFormat (s : String) : Bool := intFormatCore s.data

/-- Handler for `GET /page/:id`: parse the page token, discarding the parse
error (the `err != nil` branch of the source is empty), then authorization
check, then respond with the `Page[T]` from `FindAllPage` as-is. -/
def getAllPage (api : Api T D P E A) (c : Request D) :
    Response D P A × List (AuthCall T) :=
  let i := (parseInt64 c.param).1
  let auth := api.checkAuth c .getAll []
  if !auth.1 then (.status StatusUnauthorized, auth.2)
  else (.jsonPage (api.FindAllPage i), auth.2)

/-- Handler for `POST /filter`: authorization check first, then parse the
filter body (400 on failure), then the results of `Search` converted through
`Dto`.  Calling a nil `Search` would panic. -/
def search (api : Api T D P E A) (c : Request D) :
    Response D P A × List (AuthCall T) :=
  let auth := api.checkAuth c .getAll []
  if !auth.1 then (.status StatusUnauthorized, auth.2)
  else
    match c.body with
    | none => (.status StatusBadRequest, auth.2)
    | some filter =>
      match api.Search with
      | none => (.nilFunctionCall, auth.2)
      | some s => (.jsonList ((s filter).map api.Dto), auth.2)

/-- Handler for `GET /:id`: lookup; on a miss the no-item authorization check
decides between 401 and 404; on a hit the item-bearing check decides between
401 and the DTO of the found item. -/
def getOne (api : Api T D P E A) (c : Request D) :
    Response D P A × List (AuthCall T) :=
  match api.Find c.param with
  | none =>
    let auth := api.checkAuth c .getOne []
    if !auth.1 then (.status StatusUnauthorized, auth.2)
    else (.status StatusNotFound, auth.2)
  | some item =>
    let auth := api.checkAuth c .getOne [item]
    if !auth.1 then (.status StatusUnauthorized, auth.2)
    else (.jsonOne (api.Dto item), auth.2)

/-- Handler for `POST /`: parse the body (400 on failure), then the no-item
create authorization check, then `Create`; a collaborator error yields 500,
success the DTO of the created item.  Calling a nil `Create` would panic. -/
def createOne (api : Api T D P E A) (c : Request D) :
    Response D P A × List (AuthCall T) :=
  match c.body with
  | none => (.status StatusBadRequest, [])
  | some amended =>
    let auth := api.checkAuth c .create []
    if !auth.1 then (.status StatusUnauthorized, auth.2)
    else
      match api.Create with
      | none => (.nilFunctionCall, auth.2)
      | some create =>
        match create amended with
        | .error _ => (.status StatusInternalServerError, auth.2)
        | .ok item => (.jsonOne (api.Dto item), auth.2)

/-- Handler for `PUT /:id`: parse the body first (400 on failure), then
lookup; a miss runs the no-item mutate check (401/404); a hit runs the
item-bearing check, then `Mutate` (500 on error, DTO of the result on
success).  Calling a nil `Mutate` would panic. -/
def mutateOne (api : Api T D P E A) (c : Request D) :
    Response D P A × List (AuthCall T) :=
  match c.body with
  | none => (.status StatusBadRequest, [])
  | some amended =>
    match api.Find c.param with
    | none =>
      let auth := api.checkAuth c .mutate []
      if !auth.1 then (.status StatusUnauthorized, auth.2)
      else (.status StatusNotFound, auth.2)
    | some item =>
      let auth := api.checkAuth c .mutate [item]
      if !auth.1 then (.status StatusUnauthorized, auth.2)
      else
        match api.Mutate with
        | none => (.nilFunctionCall, auth.2)
        | some mutf =>
          match mutf item amended with
          | .error _ => (.status StatusInternalServerError, auth.2)
          | .ok item2 => (.jsonOne (api.Dto item2), auth.2)

/-- Handler for `DELETE /:id`: lookup; a miss runs the no-item delete check
(401/404); a hit runs the item-bearing check, then `Delete` (500 on error,
the literal text `deleted` on success).  Calling a nil `Delete` would
panic. -/
def deleteOne (api : Api T D P E A) (c : Request D) :
    Response D P A × List (AuthCall T) :=
  match api.Find c.param with
  | none =>
    let auth := api.checkAuth c .delete []
    if !auth.1 then (.status StatusUnauthorized, auth.2)
    else (.status StatusNotFound, auth.2)
  | some item =>
    let auth := api.checkAuth c .delete [item]
    if !auth.1 then (.status StatusUnauthorized, auth.2)
    else
      match api.Delete with
      | none => (.nilFunctionCall, auth.2)
      | some del =>
        match del item with
        | .error _ => (.status StatusInternalServerError, auth.2)
        | .ok _ => (.text "deleted", auth.2)

/-- Handler for `GET /:id/<subPath>`: lookup of the parent item; a miss runs
the no-item get-one check (401/404); a hit runs the item-bearing get-one
check, then responds with the raw sequence produced by the sub-entity
getter. -/
def getSubEntity (api : Api T D P E A) (getter : T → List A) (c : Request D) :
    Response D P A × List (AuthCall T) :=
  match api.Find c.param with
  | none =>
    let auth := api.checkAuth c .getOne []
    if !auth.1 then (.status StatusUnauthorized, auth.2)
    else (.status StatusNotFound, auth.2)
  | some item =>
    let auth := api.checkAuth c .getOne [item]
    if !auth.1 then (.status StatusUnauthorized, auth.2)
    else (.jsonSub (getter item), auth.2)

/-- HTTP method of a registered route. -/
inductive Method where
  | get
  | post
  | put
  | delete
  deriving DecidableEq

/-- Which handler a registered route dispatches to (`subEntity i` is the
route of the `i`-th declared sub-entity). -/
inductive HandlerTag where
  | getAll
  | getAllPage
  | createOne
  | search
  | subEntity (i : Nat)
  | getOne
  | mutateOne
  | deleteOne
  deriving DecidableEq

/-- A route as registered on the Fiber group for the resource path: HTTP
method, path pattern relative to the group, and the dispatched handler. -/
structure Route where
  method : Method
  path : String
  handler : HandlerTag
  deriving DecidableEq

/-- `RegisterAPI`: the ordered list of routes registered on the group
`/<Path>`.  List-all, paged list, get-one and the sub-entity routes are
unconditional; `POST /` and `PUT /:id` are both gated on `Mutate` being
non-nil; `POST /filter` on `Search`; `DELETE /:id` on `Delete`.  Sub-entity
routes are registered before the get-one route. -/
def RegisterAPI (api : Api T D P E A) : List Route :=
  [⟨.get, "/", .getAll⟩, ⟨.get, "/page/:id", .getAllPage⟩]
  ++ (if api.Mutate.isSome then [⟨.post, "/", .createOne⟩] else [])
  ++ (if api.Search.isSome then [⟨.post, "/filter", .search⟩] else [])
  ++ (List.range api.SubEntities.length).map
      (fun i => ⟨.get, "/:id/" ++ ((api.SubEntities.get? i).map SubEntity.SubPath).getD "", .subEntity i⟩)
  ++ [⟨.get, "/:id", .getOne⟩]
  ++ (if api.Mutate.isSome then [⟨.put, "/:id", .mutateOne⟩] else [])
  ++ (if api.Delete.isSome then [⟨.delete, "/:id", .deleteOne⟩] else [])

/-! Concrete descriptor instances, used to evaluate the handlers on explicit
inputs.  `T = D = E = A = Nat` and the opaque page type is instantiated at
`P = List Nat` (a page that carries the raw items). -/

/-- A fully capable descriptor with no authorization predicate.  The only
existing key is `"42"`, mapped to the entity `7`; `Dto` adds one. -/
def natApi : Api Nat Nat (List Nat) Nat Nat where
  Path := "res"
  Find := fun k => if k == "42" then some 7 else none
  FindAllPage := fun i => [i.toNat + 100]
  FindAll := fun _ => [1, 2]
  Search := some fun d => [d, d + 1]
  Mutate := some fun t d => Except.ok (t + d)
  Create := some fun d => Except.ok (d * 2)
  Delete := some fun t => Except.ok t
  SubEntities := [⟨"kids", fun t => [t, t + 1]⟩]
  Dto := fun t => t + 1
  Validator := none

/-- `natApi` with a predicate that grants everything. -/
def grantApi : Api Nat Nat (List Nat) Nat Nat :=
  { natApi with Validator := some fun _ _ _ => true }

/-- `natApi` with a predicate that denies everything. -/
def denyApi : Api Nat Nat (List Nat) Nat Nat :=
  { natApi with Validator := some fun _ _ _ => false }

/-- `natApi` with a predicate that denies exactly the checks carrying no
item (the not-found branches and the aggregate checks). -/
def denyEmptyApi : Api Nat Nat (List Nat) Nat Nat :=
  { natApi with Validator := some fun _ _ items => !items.isEmpty }

/-- `natApi` with a predicate that denies exactly the item-bearing checks. -/
def denyItemApi : Api Nat Nat (List Nat) Nat Nat :=
  { natApi with Validator := some fun _ _ items => items.isEmpty }

/-- `natApi` with `Mutate` present but `Create` nil. -/
def noCreateApi : Api Nat Nat (List Nat) Nat Nat :=
  { natApi with Create := none }

/-- `natApi` with collaborators that always fail. -/
def errApi : Api Nat Nat (List Nat) Nat Nat :=
  { natApi with
    Create := some fun _ => Except.error 3
    Mutate := some fun _ _ => Except.error 4
    Delete := some fun _ => Except.error 5 }

/-! Sanity checks of the embedding on concrete inputs. -/

example : getOne natApi ⟨"42", none⟩ = (.jsonOne 8, []) := by decide
example : getOne natApi ⟨"9", none⟩ = (.status StatusNotFound, []) := by decide
example : getOne denyEmptyApi ⟨"9", none⟩ = (.status StatusUnauthorized, [⟨.getOne, []⟩]) := by decide
example : search grantApi ⟨"x", none⟩ = (.status StatusBadRequest, [⟨.getAll, []⟩]) := by decide
example : createOne grantApi ⟨"x", none⟩ = (.status StatusBadRequest, []) := by decide
example : deleteOne natApi ⟨"42", none⟩ = (.text "deleted", []) := by decide
example : createOne noCreateApi ⟨"x", some 3⟩ = (.nilFunctionCall, []) := by decide
example : getAllPage natApi ⟨"1", none⟩ = (.jsonPage [101], []) := by decide
example : getAllPage natApi ⟨"abc", none⟩ = (.jsonPage [100], []) := by decide
example : parseInt64 "-15" = (-15, true) := by decide
example : parseInt64 "+0" = (0, true) := by decide
example : parseInt64 "" = (0, false) := by decide
example : parseInt64 "12x" = (0, false) := by decide
example : intFormat "-15" = true := by decide
example : intFormat "12x" = false := by decide
example : mutateOne errApi ⟨"42", some 1⟩ = (.status StatusInternalServerError, []) := by decide

/-! Auxiliary lemmas about the integer parser. -/

/-- If some character fails the digit test, the digit accumulator loop
reports a syntax error for every accumulator value. -/
theorem decDigits_eq_none {cs : List Char} (h : cs.all Char.isDigit = false) :
    ∀ acc, decDigits cs acc = none := by
  induction cs with
  | nil => exact Bool.noConfusion h
  | cons ch cs ih =>
    intro acc
    by_cases hc : ch.isDigit
    · simp only [List.all_cons, hc, Bool.true_and] at h
      simp [decDigits, hc, ih h]
    · simp [decDigits, hc]

/-- If a character list is empty or holds a non-digit, it has no digits
value. -/
theorem digitsValue_eq_none {ds : List Char}
    (h : (!ds.isEmpty && ds.all Char.isDigit) = false) : digitsValue ds = none := by
  cases ds with
  | nil => rfl
  | cons x xs =>
    simp only [List.isEmpty_cons, Bool.not_false, Bool.true_and] at h
    exact decDigits_eq_none h 0

/-- A character list without integer syntax parses to `(0, false)`: Go's
`ParseInt` returns value `0` together with a syntax error. -/
theorem parseIntCore_of_badFormat {l : List Char} (h : intFormatCore l = false) :
    parseIntCore l = (0, false) := by
  cases l with
  | nil => rfl
  | cons ch rest =>
    have h2 : digitsValue (signTail ch rest) = none :=
      digitsValue_eq_none (by simpa [intFormatCore] using h)
    simp [parseIntCore, h2]

/-- A string without integer syntax parses to `(0, false)`. -/
theorem parseInt64_of_badFormat {s : String} (h : intFormat s = false) :
    parseInt64 s = (0, false) :=
  parseIntCore_of_badFormat h

/-! The claim theorems. -/

/-- C1: for every operation addressing a specific item by key (get-one,
update, delete, sub-entity list), when the lookup fails the authorization
predicate is invoked with no item argument; if it denies, the response is
authorization-denied (401), never not-found; if it grants, or no predicate is
configured (in which case the guard allows the action without any predicate
invocation), the response is not-found (404).  For the update handler the
lookup is reached only once the body has parsed, hence the body hypothesis on
its conjunct. -/
theorem C1_notfound_auth_protocol
    {T D P E A : Type} (api : Api T D P E A) (getter : T → List A)
    (c : Request D) (d : D)
    (hfind : api.Find c.param = none) :
    (((api.checkAuth c .getOne []).1 = false →
        getOne api c = (.status StatusUnauthorized, (api.checkAuth c .getOne []).2) ∧
        getSubEntity api getter c
          = (.status StatusUnauthorized, (api.checkAuth c .getOne []).2)) ∧
      ((api.checkAuth c .getOne []).1 = true →
        getOne api c = (.status StatusNotFound, (api.checkAuth c .getOne []).2) ∧
        getSubEntity api getter c
          = (.status StatusNotFound, (api.checkAuth c .getOne []).2)))
    ∧ (c.body = some d →
        ((api.checkAuth c .mutate []).1 = false →
          mutateOne api c = (.status StatusUnauthorized, (api.checkAuth c .mutate []).2)) ∧
        ((api.checkAuth c .mutate []).1 = true →
          mutateOne api c = (.status StatusNotFound, (api.checkAuth c .mutate []).2)))
    ∧ (((api.checkAuth c .delete []).1 = false →
        deleteOne api c = (.status StatusUnauthorized, (api.checkAuth c .delete []).2)) ∧
       ((api.checkAuth c .delete []).1 = true →
        deleteOne api c = (.status StatusNotFound, (api.checkAuth c .delete []).2)))
    ∧ (∀ v, api.Validator = some v →
        ∀ a : Action, (api.checkAuth c a []).2 = [⟨a, []⟩])
    ∧ (api.Validator = none → ∀ a : Action, (api.checkAuth c a []).2 = []) := by
  refine ⟨⟨?_, ?_⟩, ?_, ⟨?_, ?_⟩, ?_, ?_⟩
  · intro h
    exact ⟨by simp [getOne, hfind, h], by simp [getSubEntity, hfind, h]⟩
  · intro h
    exact ⟨by simp [getOne, hfind, h], by simp [getSubEntity, hfind, h]⟩
  · intro hbody
    exact ⟨fun h => by simp [mutateOne, hbody, hfind, h],
           fun h => by simp [mutateOne, hbody, hfind, h]⟩
  · intro h
    simp [deleteOne, hfind, h]
  · intro h
    simp [deleteOne, hfind, h]
  · intro v hv a
    simp [Api.checkAuth, hv]
  · intro hv a
    simp [Api.checkAuth, hv]

/-- Witness for C1 at concrete inputs: under a predicate that denies the
no-item check, a lookup miss yields 401 with the predicate consulted on the
empty item list; with no predicate configured it yields 404. -/
theorem C1_notfound_auth_protocol_witness :
    getOne denyEmptyApi ⟨"9", some 0⟩
      = (.status StatusUnauthorized, [⟨.getOne, []⟩]) ∧
    getOne natApi ⟨"9", none⟩ = (.status StatusNotFound, []) := by
  constructor
  · exact ((C1_notfound_auth_protocol denyEmptyApi (fun t => [t]) ⟨"9", some 0⟩ 0
      (by decide)).1.1 (by decide)).1
  · exact ((C1_notfound_auth_protocol natApi (fun t => [t]) ⟨"9", none⟩ 0
      (by decide)).1.2 (by decide)).1

/-- C2: for every operation addressing a specific item by key, when the
lookup succeeds the authorization predicate is invoked with the found item;
denial yields 401 regardless of what the operation would otherwise do
(no assumption is made on the collaborator functions in the denial
conjuncts), and approval proceeds to the operation's effect: the DTO of the
found item for get-one, the raw sub-sequence for sub-entity list, the
`Mutate`/`Delete` call for update and delete. -/
theorem C2_found_auth_protocol
    {T D P E A : Type} (api : Api T D P E A) (getter : T → List A)
    (c : Request D) (item : T) (d : D)
    (hfind : api.Find c.param = some item) :
    ((∀ v, api.Validator = some v →
        ∀ a : Action, (api.checkAuth c a [item]).2 = [⟨a, [item]⟩])
    ∧ ((api.checkAuth c .getOne [item]).1 = false →
        getOne api c = (.status StatusUnauthorized, (api.checkAuth c .getOne [item]).2) ∧
        getSubEntity api getter c
          = (.status StatusUnauthorized, (api.checkAuth c .getOne [item]).2))
    ∧ (c.body = some d → (api.checkAuth c .mutate [item]).1 = false →
        mutateOne api c = (.status StatusUnauthorized, (api.checkAuth c .mutate [item]).2))
    ∧ ((api.checkAuth c .delete [item]).1 = false →
        deleteOne api c = (.status StatusUnauthorized, (api.checkAuth c .delete [item]).2))
    ∧ ((api.checkAuth c .getOne [item]).1 = true →
        getOne api c = (.jsonOne (api.Dto item), (api.checkAuth c .getOne [item]).2) ∧
        getSubEntity api getter c
          = (.jsonSub (getter item), (api.checkAuth c .getOne [item]).2))
    ∧ (∀ mutf, c.body = some d → api.Mutate = some mutf →
        (api.checkAuth c .mutate [item]).1 = true →
        mutateOne api c = ((match mutf item d with
          | .error _ => .status StatusInternalServerError
          | .ok r => .jsonOne (api.Dto r)), (api.checkAuth c .mutate [item]).2))
    ∧ (∀ del, api.Delete = some del →
        (api.checkAuth c .delete [item]).1 = true →
        deleteOne api c = ((match del item with
          | .error _ => .status StatusInternalServerError
          | .ok _ => .text "deleted"), (api.checkAuth c .delete [item]).2))) := by
  refine ⟨?_, ?_, ?_, ?_, ?_, ?_, ?_⟩
  · intro v hv a
    simp [Api.checkAuth, hv]
  · intro h
    exact ⟨by simp [getOne, hfind, h], by simp [getSubEntity, hfind, h]⟩
  · intro hbody h
    simp [mutateOne, hbody, hfind, h]
  · intro h
    simp [deleteOne, hfind, h]
  · intro h
    exact ⟨by simp [getOne, hfind, h], by simp [getSubEntity, hfind, h]⟩
  · intro mutf hbody hmut h
    cases hr : mutf item d with
    | error e => simp [mutateOne, hbody, hfind, h, hmut, hr]
    | ok r => simp [mutateOne, hbody, hfind, h, hmut, hr]
  · intro del hdel h
    cases hr : del item with
    | error e => simp [deleteOne, hfind, h, hdel, hr]
    | ok r => simp [deleteOne, hfind, h, hdel, hr]

/-- Witness for C2 at concrete inputs: for the existing key `"42"`, a
predicate denying the item-bearing check makes get-one answer 401 with the
predicate consulted on the found item `7`, while without a predicate delete
proceeds to its effect. -/
theorem C2_found_auth_protocol_witness :
    getOne denyItemApi ⟨"42", some 0⟩
      = (.status StatusUnauthorized, [⟨.getOne, [7]⟩]) ∧
    deleteOne natApi ⟨"42", none⟩ = (.text "deleted", []) := by
  constructor
  · exact ((C2_found_auth_protocol denyItemApi (fun t => [t]) ⟨"42", some 0⟩ 7 0
      (by decide)).2.1 (by decide)).1
  · exact ((C2_found_auth_protocol natApi (fun t => [t]) ⟨"42", none⟩ 7 0
      (by decide)).2.2.2.2.2.2 (fun t => Except.ok t) rfl (by decide))

/-- C3: route exposure is exactly capability-driven.  List-all, paged list,
get-one, and one route per declared sub-entity are always registered; the
create (`POST /`) and update (`PUT /:id`) routes are both registered iff
`Mutate` is non-nil; the search route iff `Search` is non-nil; the delete
route iff `Delete` is non-nil. -/
theorem C3_route_exposure {T D P E A : Type} (api : Api T D P E A) :
    ((⟨.get, "/", .getAll⟩ : Route) ∈ RegisterAPI api)
    ∧ ((⟨.get, "/page/:id", .getAllPage⟩ : Route) ∈ RegisterAPI api)
    ∧ ((⟨.get, "/:id", .getOne⟩ : Route) ∈ RegisterAPI api)
    ∧ (∀ i, i < api.SubEntities.length →
        (⟨.get, "/:id/" ++ ((api.SubEntities.get? i).map SubEntity.SubPath).getD "",
          .subEntity i⟩ : Route) ∈ RegisterAPI api)
    ∧ (((⟨.post, "/", .createOne⟩ : Route) ∈ RegisterAPI api)
        ↔ api.Mutate.isSome = true)
    ∧ (((⟨.put, "/:id", .mutateOne⟩ : Route) ∈ RegisterAPI api)
        ↔ api.Mutate.isSome = true)
    ∧ (((⟨.post, "/filter", .search⟩ : Route) ∈ RegisterAPI api)
        ↔ api.Search.isSome = true)
    ∧ (((⟨.delete, "/:id", .deleteOne⟩ : Route) ∈ RegisterAPI api)
        ↔ api.Delete.isSome = true) := by
  have hsub : ∀ i, i < api.SubEntities.length →
      (⟨.get, "/:id/" ++ ((api.SubEntities.get? i).map SubEntity.SubPath).getD "",
        .subEntity i⟩ : Route) ∈ RegisterAPI api := by
    intro i hi
    have hm : (⟨.get, "/:id/" ++ ((api.SubEntities.get? i).map SubEntity.SubPath).getD "",
        .subEntity i⟩ : Route) ∈ (List.range api.SubEntities.length).map
          (fun j => (⟨.get, "/:id/" ++ ((api.SubEntities.get? j).map SubEntity.SubPath).getD "",
            .subEntity j⟩ : Route)) :=
      List.mem_map.mpr ⟨i, List.mem_range.mpr hi, rfl⟩
    unfold RegisterAPI
    simp only [List.mem_append]
    exact Or.inl (Or.inl (Or.inl (Or.inr hm)))
  refine ⟨?_, ?_, ?_, hsub, ?_, ?_, ?_, ?_⟩ <;>
    cases hm : api.Mutate <;> cases hs : api.Search <;> cases hd : api.Delete <;>
      simp [RegisterAPI, hm, hs, hd]

/-- Witness for C3 at the concrete descriptor `natApi` (all capabilities
present, one sub-entity): its create route and sub-entity route obtained by
applying the exposure theorem. -/
theorem C3_route_exposure_witness :
    ((⟨.get, "/", .getAll⟩ : Route) ∈ RegisterAPI natApi)
    ∧ ((⟨.post, "/", .createOne⟩ : Route) ∈ RegisterAPI natApi
        ↔ natApi.Mutate.isSome = true)
    ∧ ((⟨.get, "/:id/" ++ ((natApi.SubEntities.get? 0).map SubEntity.SubPath).getD "",
        .subEntity 0⟩ : Route) ∈ RegisterAPI natApi) := by
  have h := C3_route_exposure natApi
  exact ⟨h.1, h.2.2.2.2.1, h.2.2.2.1 0 (by decide)⟩

/-- C4, counterexample: the claim that a malformed body yields 400 before
the authorization predicate is invoked — zero invocations — fails for the
search handler.  With an always-granting predicate and an unparseable body,
search answers 400 but the predicate has already been invoked once (the
recorded invocation list is `[⟨getAll, []⟩]`, not `[]`); with an
always-denying predicate the same request yields 401, not 400. -/
theorem C4_cex_search_auth_before_parse :
    search grantApi ⟨"x", (none : Option Nat)⟩
      = (.status StatusBadRequest, [⟨.getAll, []⟩])
    ∧ search denyApi ⟨"x", (none : Option Nat)⟩
      = (.status StatusUnauthorized, [⟨.getAll, []⟩])
    ∧ ([(⟨.getAll, []⟩ : AuthCall Nat)] ≠ []) := by
  decide

/-- C4, amended: for the create and update handlers a request body that
cannot be decoded into `D` yields 400 with the authorization predicate
invoked zero times; the search handler instead evaluates the authorization
guard before parsing the body — on a malformed body, denial yields 401, and
grant (or no configured predicate) yields 400 with the predicate having been
invoked once if configured. -/
theorem C4_badbody_auth_amended
    {T D P E A : Type} (api : Api T D P E A) (c : Request D)
    (hbody : c.body = none) :
    createOne api c = (.status StatusBadRequest, [])
    ∧ mutateOne api c = (.status StatusBadRequest, [])
    ∧ ((api.checkAuth c .getAll []).1 = false →
        search api c = (.status StatusUnauthorized, (api.checkAuth c .getAll []).2))
    ∧ ((api.checkAuth c .getAll []).1 = true →
        search api c = (.status StatusBadRequest, (api.checkAuth c .getAll []).2))
    ∧ (∀ v, api.Validator = some v → (api.checkAuth c .getAll []).2 = [⟨.getAll, []⟩]) := by
  refine ⟨by simp [createOne, hbody], by simp [mutateOne, hbody], ?_, ?_, ?_⟩
  · intro h
    simp [search, hbody, h]
  · intro h
    simp [search, hbody, h]
  · intro v hv
    simp [Api.checkAuth, hv]

/-- Witness for the amended C4 at concrete inputs: a malformed body on
create yields 400 with no predicate invocation, and on search with a denying
predicate yields 401. -/
theorem C4_badbody_auth_amended_witness :
    createOne grantApi ⟨"x", none⟩ = (.status StatusBadRequest, [])
    ∧ search denyApi ⟨"x", none⟩
      = (.status StatusUnauthorized, (denyApi.checkAuth ⟨"x", none⟩ .getAll []).2) := by
  constructor
  · exact (C4_badbody_auth_amended grantApi ⟨"x", none⟩ rfl).1
  · exact (C4_badbody_auth_amended denyApi ⟨"x", none⟩ rfl).2.2.1 (by decide)

/-- C5, counterexample: the claim that every multi-item response is the
`toDto` image of its results and that a raw internal entity is never
serialized by any route fails on the paged-list route.  Instantiating the
opaque page type with a page that carries the raw items, `GET /page/1` on
`natApi` responds with the page `[101]` holding the raw internal entity
`101`, although its DTO is `102`: the response is not the `Dto` image of the
fetched results. -/
theorem C5_cex_paged_raw_entity :
    (getAllPage natApi ⟨"1", (none : Option Nat)⟩).1 = Response.jsonPage [101]
    ∧ natApi.Dto 101 = 102
    ∧ (getAllPage natApi ⟨"1", (none : Option Nat)⟩).1
        ≠ Response.jsonPage ([101].map natApi.Dto) := by
  decide

/-- C5, amended: `Dto` is applied to every entity leaving through the
list-all, search, get-one, create and update routes — every successful
single-item body is the DTO of exactly the item the collaborator returned,
and list-all/search bodies are the `Dto` image of the results.  The
paged-list route, however, responds with the `Page[T]` from `FindAllPage`
as-is with no DTO conversion, and the sub-entity route responds with the
getter's raw sequence. -/
theorem C5_dto_discipline_amended
    {T D P E A : Type} (api : Api T D P E A) (getter : T → List A)
    (c : Request D) (item r : T) (d : D) :
    (api.Find c.param = some item → (api.checkAuth c .getOne [item]).1 = true →
      (getOne api c).1 = .jsonOne (api.Dto item))
    ∧ (∀ f, c.body = some d → (api.checkAuth c .create []).1 = true →
        api.Create = some f → f d = .ok item →
        (createOne api c).1 = .jsonOne (api.Dto item))
    ∧ (∀ mutf, c.body = some d → api.Find c.param = some item →
        (api.checkAuth c .mutate [item]).1 = true → api.Mutate = some mutf →
        mutf item d = .ok r → (mutateOne api c).1 = .jsonOne (api.Dto r))
    ∧ ((api.checkAuth c .getAll []).1 = true →
        (getAll api c).1 = .jsonList ((api.FindAll ()).map api.Dto))
    ∧ (∀ s, (api.checkAuth c .getAll []).1 = true → c.body = some d →
        api.Search = some s →
        (search api c).1 = .jsonList ((s d).map api.Dto))
    ∧ ((api.checkAuth c .getAll []).1 = true →
        (getAllPage api c).1 = .jsonPage (api.FindAllPage (parseInt64 c.param).1))
    ∧ (api.Find c.param = some item → (api.checkAuth c .getOne [item]).1 = true →
        (getSubEntity api getter c).1 = .jsonSub (getter item)) := by
  refine ⟨?_, ?_, ?_, ?_, ?_, ?_, ?_⟩
  · intro hfind h
    simp [getOne, hfind, h]
  · intro f hbody h hcreate hok
    simp [createOne, hbody, h, hcreate, hok]
  · intro mutf hbody hfind h hmut hok
    simp [mutateOne, hbody, hfind, h, hmut, hok]
  · intro h
    simp [getAll, h]
  · intro s h hbody hsearch
    simp [search, h, hbody, hsearch]
  · intro h
    simp [getAllPage, h]
  · intro hfind h
    simp [getSubEntity, hfind, h]

/-- Witness for the amended C5 at concrete inputs: the get-one body is the
DTO `8` of the found entity `7`, and the list-all body is the `Dto` image of
`FindAll`. -/
theorem C5_dto_discipline_amended_witness :
    (getOne natApi ⟨"42", none⟩).1 = Response.jsonOne 8
    ∧ (getAll natApi ⟨"42", none⟩).1 = Response.jsonList [2, 3] := by
  have h := C5_dto_discipline_amended natApi (fun t => [t]) ⟨"42", none⟩ 7 7 0
  constructor
  · have h1 := h.1 (by decide) (by decide)
    simpa using h1
  · have h4 := h.2.2.2.1 (by decide)
    simpa using h4

/-- C6: for a descriptor whose `Mutate` is non-nil but whose `Create` is
nil, the `POST /` create route is registered anyway (it is gated on `Mutate`,
not on `Create`), and a create request with a well-formed body that passes
the authorization checkpoint reaches the call through the nil `Create`
function — the handler's missing-create branch (a nil-function panic in Go)
is reachable under the route-registration precondition. -/
theorem C6_null_create_reachable
    {T D P E A : Type} (api : Api T D P E A) (c : Request D) (d : D)
    (hmut : api.Mutate.isSome = true) (hcreate : api.Create = none)
    (hbody : c.body = some d)
    (hauth : (api.checkAuth c .create []).1 = true) :
    ((⟨.post, "/", .createOne⟩ : Route) ∈ RegisterAPI api)
    ∧ createOne api c = (.nilFunctionCall, (api.checkAuth c .create []).2) := by
  refine ⟨(C3_route_exposure api).2.2.2.2.1.mpr hmut, ?_⟩
  simp [createOne, hbody, hauth, hcreate]

/-- Witness for C6 at the concrete descriptor `noCreateApi` (`Mutate`
present, `Create` nil, no predicate): the create route is registered and a
well-formed create request hits the nil-function branch. -/
theorem C6_null_create_reachable_witness :
    ((⟨.post, "/", .createOne⟩ : Route) ∈ RegisterAPI noCreateApi)
    ∧ createOne noCreateApi ⟨"x", some 3⟩
      = (.nilFunctionCall, (noCreateApi.checkAuth ⟨"x", some 3⟩ .create []).2) :=
  C6_null_create_reachable noCreateApi ⟨"x", some 3⟩ 3 rfl rfl rfl (by decide)

/-- C7: when the page token has no integer syntax, the paged-list handler
does not answer 400: the parse failure is silently swallowed (the source's
`err != nil` branch is empty) and, authorization granting or absent,
`FindAllPage` is invoked with the zero default token, still producing a
well-formed success response. -/
theorem C7_page_token_swallow
    {T D P E A : Type} (api : Api T D P E A) (c : Request D)
    (hsyn : intFormat c.param = false)
    (hauth : (api.checkAuth c .getAll []).1 = true) :
    getAllPage api c = (.jsonPage (api.FindAllPage 0), (api.checkAuth c .getAll []).2) := by
  have hz : (parseInt64 c.param).1 = 0 := by
    rw [parseInt64_of_badFormat hsyn]
  simp [getAllPage, hz, hauth]

/-- Witness for C7 at a concrete input: the unparseable token `"abc"` on
`natApi` produces the success page for token `0`. -/
theorem C7_page_token_swallow_witness :
    getAllPage natApi ⟨"abc", none⟩
      = (.jsonPage (natApi.FindAllPage 0), (natApi.checkAuth ⟨"abc", none⟩ .getAll []).2) :=
  C7_page_token_swallow natApi ⟨"abc", none⟩ (by decide) (by decide)

/-- C8: the paged-list handler responds with the opaque `Page[T]` returned
by `FindAllPage` as-is — no DTO conversion is applied to it (the page type
`P` is opaque to the handler, which forwards the fetched value unchanged). -/
theorem C8_page_as_is
    {T D P E A : Type} (api : Api T D P E A) (c : Request D)
    (hauth : (api.checkAuth c .getAll []).1 = true) :
    getAllPage api c
      = (.jsonPage (api.FindAllPage (parseInt64 c.param).1),
         (api.checkAuth c .getAll []).2) := by
  simp [getAllPage, hauth]

/-- Witness for C8 at a concrete input: `GET /page/1` on `natApi` forwards
`FindAllPage 1` unchanged. -/
theorem C8_page_as_is_witness :
    getAllPage natApi ⟨"1", none⟩
      = (.jsonPage (natApi.FindAllPage (parseInt64 "1").1),
         (natApi.checkAuth ⟨"1", none⟩ .getAll []).2) :=
  C8_page_as_is natApi ⟨"1", none⟩ (by decide)

/-- C9: a successful delete of an existing, authorized item responds with
the literal confirmation string `deleted`, which is not the JSON of any
DTO value. -/
theorem C9_delete_plain_text
    {T D P E A : Type} (api : Api T D P E A) (c : Request D)
    (item r : T) (del : T → Except E T)
    (hfind : api.Find c.param = some item)
    (hdel : api.Delete = some del) (hok : del item = .ok r)
    (hauth : (api.checkAuth c .delete [item]).1 = true) :
    deleteOne api c = (.text "deleted", (api.checkAuth c .delete [item]).2)
    ∧ ∀ b : D, (Response.text "deleted" : Response D P A) ≠ .jsonOne b := by
  refine ⟨by simp [deleteOne, hfind, hauth, hdel, hok], ?_⟩
  intro b hcontra
  exact Response.noConfusion hcontra

/-- Witness for C9 at a concrete input: deleting the existing key `"42"` of
`natApi` answers the literal text `deleted`. -/
theorem C9_delete_plain_text_witness :
    deleteOne natApi ⟨"42", none⟩
      = (.text "deleted", (natApi.checkAuth ⟨"42", none⟩ .delete [7]).2)
    ∧ ∀ b : Nat, (Response.text "deleted" : Response Nat (List Nat) Nat) ≠ .jsonOne b :=
  C9_delete_plain_text natApi ⟨"42", none⟩ 7 7 (fun t => Except.ok t)
    (by decide) rfl rfl (by decide)

/-- C10: whenever the `Create`, `Mutate` or `Delete` collaborator returns an
error, the response is exactly `SendStatus 500` — a bare status carrying no
payload.  The conclusion is the same fixed response for every error value
`e`, so the internal cause is never included in the response body. -/
theorem C10_collaborator_error_500
    {T D P E A : Type} (api : Api T D P E A) (c : Request D)
    (d : D) (item : T) (e : E) :
    (∀ f, c.body = some d → (api.checkAuth c .create []).1 = true →
      api.Create = some f → f d = .error e →
      createOne api c = (.status StatusInternalServerError, (api.checkAuth c .create []).2))
    ∧ (∀ mutf, c.body = some d → api.Find c.param = some item →
        (api.checkAuth c .mutate [item]).1 = true → api.Mutate = some mutf →
        mutf item d = .error e →
        mutateOne api c
          = (.status StatusInternalServerError, (api.checkAuth c .mutate [item]).2))
    ∧ (∀ del, api.Find c.param = some item →
        (api.checkAuth c .delete [item]).1 = true → api.Delete = some del →
        del item = .error e →
        deleteOne api c
          = (.status StatusInternalServerError, (api.checkAuth c .delete [item]).2)) := by
  refine ⟨?_, ?_, ?_⟩
  · intro f hbody hauth hcreate herr
    simp [createOne, hbody, hauth, hcreate, herr]
  · intro mutf hbody hfind hauth hmut herr
    simp [mutateOne, hbody, hfind, hauth, hmut, herr]
  · intro del hfind hauth hdel herr
    simp [deleteOne, hfind, hauth, hdel, herr]

/-- Witness for C10 at concrete inputs: on `errApi` (all collaborators
fail) the create and delete handlers answer the bare 500 status. -/
theorem C10_collaborator_error_500_witness :
    createOne errApi ⟨"x", some 3⟩
      = (.status StatusInternalServerError, (errApi.checkAuth ⟨"x", some 3⟩ .create []).2)
    ∧ deleteOne errApi ⟨"42", some 3⟩
      = (.status StatusInternalServerError, (errApi.checkAuth ⟨"42", some 3⟩ .delete [7]).2) := by
  have h := C10_collaborator_error_500 errApi ⟨"x", some 3⟩ 3 7 3
  have h2 := C10_collaborator_error_500 errApi ⟨"42", some 3⟩ 3 7 5
  exact ⟨h.1 (fun _ => Except.error 3) rfl (by decide) rfl rfl,
         h2.2.2 (fun _ => Except.error 5) (by decide) (by decide) rfl rfl⟩

end EasyRest
